import Mathlib

/-
Verification of the adaptive assessment and augmentation pipeline of the
ResponsibleAIAgent backend (src/backend/app.py, src/backend/response_adapter.py,
src/backend/dynamic_resources.py), as a shallow embedding in Lean 4.

Conventions of the embedding:
- Python dict/JSON values are modelled by `JVal`; a Python dict is an
  association list that preserves insertion order, exactly as CPython does.
- A project profile is a flat map from field names to strings (all fields the
  claims exercise are string-valued); the one list-valued field the risk
  scorer reads, `ai_capabilities`, is passed as an explicit `List String`.
- Machine integers do not overflow in any of the embedded code paths
  (scores stay far below 2^63), so `Nat`/`Int` are used directly.
-/

set_option maxHeartbeats 1000000

/-- JSON-like values: the shape of Python dicts/lists/strings handled by the
pipeline.  Objects are insertion-ordered association lists, as in CPython. -/
inductive JVal where
  | null
  | bool (b : Bool)
  | num (n : Int)
  | str (s : String)
  | arr (xs : List JVal)
  | obj (kvs : List (String × JVal))

/-- Lookup of a key in an object (Python `d.get(k)`); `none` on non-objects. -/
def jGet : JVal → String → Option JVal
  | .obj kvs, k => (kvs.find? (fun p => p.1 = k)).map Prod.snd
  | _, _ => none

/-- Replace the value at `k` in an association list, keeping its position
(CPython dict assignment on an existing key), or append `(k, v)` if absent. -/
def setPairs : List (String × JVal) → String → JVal → List (String × JVal)
  | [], k, v => [(k, v)]
  | (k', v') :: rest, k, v =>
    if k' = k then (k', v) :: rest else (k', v') :: setPairs rest k v

/-- Python dict assignment `d[k] = v` (a no-op on non-objects, which only
arises for inputs the source would crash on). -/
def jSet : JVal → String → JVal → JVal
  | .obj kvs, k, v => .obj (setPairs kvs k v)
  | j, _, _ => j

/-- The top-level keys of an object, in insertion order. -/
def topKeys : JVal → List String
  | .obj kvs => kvs.map Prod.fst
  | _ => []

/-- Python `k in d` for a dict. -/
def jHasKey (j : JVal) (k : String) : Bool :=
  match jGet j k with
  | some _ => true
  | none => false

/-- Python truthiness of a value. -/
def jTruthy : JVal → Bool
  | .null => false
  | .bool b => b
  | .num n => n != 0
  | .str s => s != ""
  | .arr xs => !xs.isEmpty
  | .obj kvs => !kvs.isEmpty

/-- Python `str.lower()` for the ASCII strings the pipeline handles. -/
def pyLower (s : String) : String :=
  String.mk (s.data.map Char.toLower)

/-- Python `str.strip()`: drop leading and trailing whitespace. -/
def pyStrip (s : String) : String :=
  String.mk (((s.data.dropWhile Char.isWhitespace).reverse.dropWhile
    Char.isWhitespace).reverse)

/-- Whether `pat` occurs at the start of `l`. -/
def chStarts : List Char → List Char → Bool
  | [], _ => true
  | _ :: _, [] => false
  | a :: as, b :: bs => a == b && chStarts as bs

/-- Whether `pat` occurs somewhere in `l`. -/
def chSub (pat : List Char) : List Char → Bool
  | [] => pat.isEmpty
  | c :: rest => chStarts pat (c :: rest) || chSub pat rest

/-- Python `needle in hay` for strings. -/
def strIn (needle hay : String) : Bool :=
  chSub needle.data hay.data

/-- The profile sent to the review endpoints: a flat map of string fields. -/
def Profile := List (String × String)

/-- Python `project_data.get(field, "")` over the flat string profile. -/
def pGet (pd : Profile) (field : String) : String :=
  match List.find? (fun p => p.1 = field) pd with
  | some p => p.2
  | none => ""

/-- Python `project_data.get(field, default)` for a string default. -/
def pGetD (pd : Profile) (field default : String) : String :=
  match List.find? (fun p => p.1 = field) pd with
  | some p => p.2
  | none => default

/-
Embedding of src/backend/response_adapter.py.
-/

/-- Response depth levels (response_adapter.py, class ResponseDepth). -/
inductive ResponseDepth where
  | minimal
  | basic
  | standard
  | comprehensive
deriving DecidableEq

/-- InputAssessor.FIELD_WEIGHTS (response_adapter.py:55-92), in source order. -/
def FIELD_WEIGHTS : List (String × Nat) :=
  [("project_name", 10), ("project_description", 15),
   ("deployment_stage", 10), ("technology_type", 10), ("industry", 10),
   ("target_users", 8), ("data_types", 8), ("additional_context", 5),
   ("intended_purpose", 8), ("business_problem", 5), ("end_users", 5),
   ("data_sources", 5), ("data_collection_storage", 5), ("sensitive_data", 8),
   ("ai_models", 5), ("model_type", 5), ("environments_connectors", 3),
   ("bias_checking", 5), ("bias_mitigation", 5), ("decision_explainability", 5),
   ("output_documentation", 3), ("system_ownership", 5), ("escalation_paths", 3),
   ("data_security", 5), ("privacy_compliance", 5), ("potential_risks", 8),
   ("risk_monitoring", 5), ("user_interaction_method", 3), ("human_in_loop", 5)]

/-- The sentinel strings treated as "not provided" (response_adapter.py:122). -/
def SENTINELS : List String := ["not specified", "not provided", "n/a", "none"]

/-- The provided-field test of assess_input (response_adapter.py:122):
`value and str(value).strip() and str(value).lower() not in SENTINELS`. -/
def isProvided (value : String) : Bool :=
  value != "" && pyStrip value != "" && !(SENTINELS.contains (pyLower value))

/-- The achieved-weight accumulation loop of assess_input
(response_adapter.py:120-126). -/
def achievedWeight (pd : Profile) : Nat :=
  FIELD_WEIGHTS.foldl (fun acc p => if isProvided (pGet pd p.1) then acc + p.2 else acc) 0

/-- `total_weight = sum(cls.FIELD_WEIGHTS.values())` (response_adapter.py:117). -/
def totalWeight : Nat := (FIELD_WEIGHTS.map Prod.snd).sum

/-- Python `round(num / den * 100)` modelled exactly in Nat arithmetic as
`(2 * num + den) / (2 * den)` (floor of `num / den + 1/2`).  Python rounds
halves to even, but for this program `num / den` is `100 * a / 182 = 50 * a / 91`,
which is never half-integral (`100 * a = 91 * (2k+1)` would equate an even and
an odd number), and the float64 evaluation of `a / 182 * 100` is always more
than 1/364 away from a half, so round-half-up, round-half-even and the float
computation all agree on every reachable input. -/
def pyRoundDiv (num den : Nat) : Nat := (2 * num + den) / (2 * den)

/-- `completeness_score` of assess_input (response_adapter.py:128). -/
def completeness_score (pd : Profile) : Nat :=
  pyRoundDiv (achievedWeight pd * 100) totalWeight

/-- InputAssessor.DEPTH_THRESHOLDS (response_adapter.py:95-100), in dict
insertion order. -/
def DEPTH_THRESHOLDS : List (ResponseDepth × Nat) :=
  [(.minimal, 0), (.basic, 25), (.standard, 50), (.comprehensive, 75)]

/-- The depth-selection loop of assess_input (response_adapter.py:131-135):
scan tiers by threshold descending, pick the first whose threshold is at most
the score, defaulting to MINIMAL. -/
def selectDepthLoop (score : Nat) : List (ResponseDepth × Nat) → ResponseDepth
  | [] => .minimal
  | (d, t) :: rest => if score ≥ t then d else selectDepthLoop score rest

/-- `sorted(cls.DEPTH_THRESHOLDS.items(), key=lambda x: x[1], reverse=True)`
evaluates to the reverse of the insertion order. -/
def select_depth (score : Nat) : ResponseDepth :=
  selectDepthLoop score DEPTH_THRESHOLDS.reverse

/-- The result dict of InputAssessor.assess_input (response_adapter.py:147-155). -/
structure Assessment where
  completeness_score : Nat
  response_depth : ResponseDepth
  provided_fields : List String
  missing_critical : List String
  suggestions : List String
  field_count : Nat
  total_fields : Nat
deriving DecidableEq

/-- InputAssessor.assess_input (response_adapter.py:102-155). -/
def assess_input (pd : Profile) : Assessment :=
  let provided := (FIELD_WEIGHTS.filter (fun p => isProvided (pGet pd p.1))).map Prod.fst
  let missing := (FIELD_WEIGHTS.filter (fun p => !isProvided (pGet pd p.1))).map Prod.fst
  { completeness_score := completeness_score pd
    response_depth := select_depth (completeness_score pd)
    provided_fields := provided
    missing_critical :=
      (["project_name", "project_description"]).filter (fun f => missing.contains f)
    suggestions :=
      (missing.filter (fun f =>
        ((FIELD_WEIGHTS.find? (fun p => p.1 = f)).map Prod.snd).getD 0 ≥ 8)).take 5
    field_count := provided.length
    total_fields := FIELD_WEIGHTS.length }

/-- Detection keyword lists of InputAssessor.detect_project_type
(response_adapter.py:171-209), in source order. -/
def PATTERN_IS_LLM : List String :=
  ["llm", "gpt", "chatbot", "generative", "language model",
   "openai", "copilot", "assistant", "claude", "gemini",
   "rag", "retrieval", "prompt", "chat"]

def PATTERN_IS_AGENT : List String :=
  ["agent", "autonomous", "multi-agent", "agentic", "orchestrat",
   "tool use", "function calling", "reasoning"]

def PATTERN_IS_ML : List String :=
  ["machine learning", "ml", "classification", "regression",
   "prediction", "forecast", "clustering", "neural network",
   "deep learning", "training", "model"]

def PATTERN_IS_VISION : List String :=
  ["vision", "image", "video", "computer vision", "ocr",
   "object detection", "face", "recognition"]

def PATTERN_IS_DOCUMENT : List String :=
  ["document", "pdf", "form", "extract", "invoice", "receipt", "contract"]

def PATTERN_HANDLES_PII : List String :=
  ["personal", "pii", "customer data", "user data",
   "health", "financial", "ssn", "email", "phone",
   "address", "name", "hipaa", "gdpr"]

def PATTERN_IS_HIGH_RISK : List String :=
  ["healthcare", "medical", "diagnosis", "treatment",
   "financial", "credit", "loan", "hr", "hiring",
   "recruitment", "law enforcement", "legal", "education",
   "grading", "assessment"]

def PATTERN_IS_CUSTOMER_FACING : List String :=
  ["customer", "user-facing", "public", "consumer", "external", "client", "end user"]

/-- The detected characteristics returned by detect_project_type. -/
structure Characteristics where
  is_llm_project : Bool
  is_agent_project : Bool
  is_ml_project : Bool
  is_vision_project : Bool
  is_document_project : Bool
  handles_pii : Bool
  is_high_risk : Bool
  is_customer_facing : Bool
  primary_type : String
deriving DecidableEq

/-- `any(kw in combined for kw in keywords)` (response_adapter.py:213). -/
def anyKeywordIn (keywords : List String) (combined : String) : Bool :=
  keywords.any (fun kw => strIn kw combined)

/-- InputAssessor.detect_project_type (response_adapter.py:157-229).
`combined` is the lower-cased concatenation of project_description,
technology_type and ai_models, separated by single spaces. -/
def detect_project_type (pd : Profile) : Characteristics :=
  let combined :=
    pyLower (pGet pd "project_description") ++ " " ++
    pyLower (pGet pd "technology_type") ++ " " ++
    pyLower (pGet pd "ai_models")
  let llm := anyKeywordIn PATTERN_IS_LLM combined
  let agent := anyKeywordIn PATTERN_IS_AGENT combined
  let ml := anyKeywordIn PATTERN_IS_ML combined
  let vision := anyKeywordIn PATTERN_IS_VISION combined
  let document := anyKeywordIn PATTERN_IS_DOCUMENT combined
  { is_llm_project := llm
    is_agent_project := agent
    is_ml_project := ml
    is_vision_project := vision
    is_document_project := document
    handles_pii := anyKeywordIn PATTERN_HANDLES_PII combined
    is_high_risk := anyKeywordIn PATTERN_IS_HIGH_RISK combined
    is_customer_facing := anyKeywordIn PATTERN_IS_CUSTOMER_FACING combined
    primary_type :=
      if agent then "AI Agent"
      else if llm then "LLM/Generative AI"
      else if vision then "Computer Vision"
      else if document then "Document Intelligence"
      else if ml then "Traditional ML"
      else "General AI" }

/-
Embedding of PriorityMapper (src/backend/response_adapter.py:354-426).
-/

/-- Priority levels (response_adapter.py, class Priority). -/
inductive Priority where
  | CRITICAL_BLOCKER
  | HIGHLY_RECOMMENDED
  | RECOMMENDED
  | NICE_TO_HAVE
deriving DecidableEq

/-- Severity order on priorities: CRITICAL_BLOCKER is most severe. -/
def severity : Priority → Nat
  | .CRITICAL_BLOCKER => 3
  | .HIGHLY_RECOMMENDED => 2
  | .RECOMMENDED => 1
  | .NICE_TO_HAVE => 0

/-- PriorityMapper.RISK_PRIORITY_MAP (response_adapter.py:360-381). -/
def RISK_PRIORITY_MAP : List (String × Priority) :=
  [("prompt_injection_jailbreak", .CRITICAL_BLOCKER),
   ("harmful_content_generation", .CRITICAL_BLOCKER),
   ("pii_data_exposure", .CRITICAL_BLOCKER),
   ("unauthorized_actions", .CRITICAL_BLOCKER),
   ("hallucination_grounding", .HIGHLY_RECOMMENDED),
   ("bias_discrimination", .HIGHLY_RECOMMENDED),
   ("model_reliability", .HIGHLY_RECOMMENDED),
   ("excessive_agency", .HIGHLY_RECOMMENDED),
   ("lack_of_explainability", .RECOMMENDED),
   ("insufficient_monitoring", .RECOMMENDED),
   ("accessibility_gaps", .RECOMMENDED),
   ("cost_optimization", .NICE_TO_HAVE),
   ("performance_tuning", .NICE_TO_HAVE)]

/-- `RISK_PRIORITY_MAP.get(risk_type, Priority.RECOMMENDED)`
(response_adapter.py:409). -/
def basePriority (risk_type : String) : Priority :=
  (((RISK_PRIORITY_MAP.find? (fun p => p.1 = risk_type)).map Prod.snd)).getD .RECOMMENDED

/-- ESCALATION_RULES entry "is_high_risk" (response_adapter.py:385-388):
Recommended to HighlyRecommended, NiceToHave to Recommended. -/
def escalationHighRisk : Priority → Priority
  | .RECOMMENDED => .HIGHLY_RECOMMENDED
  | .NICE_TO_HAVE => .RECOMMENDED
  | p => p

/-- ESCALATION_RULES entry "production_stage" (response_adapter.py:389-392):
HighlyRecommended to CriticalBlocker, Recommended to HighlyRecommended. -/
def escalationProduction : Priority → Priority
  | .HIGHLY_RECOMMENDED => .CRITICAL_BLOCKER
  | .RECOMMENDED => .HIGHLY_RECOMMENDED
  | p => p

/-- ESCALATION_RULES entry "handles_pii" (response_adapter.py:393-396): a map
from risk type to the tier it forces. -/
def piiRules : List (String × Priority) :=
  [("pii_data_exposure", .CRITICAL_BLOCKER),
   ("lack_of_explainability", .HIGHLY_RECOMMENDED)]

/-- The escalation chain of PriorityMapper.get_priority
(response_adapter.py:410-426), applied to an arbitrary base tier:
high-risk escalation, then production escalation, then the handles_pii
override keyed by risk type (terminal, replaces the tier outright). -/
def applyEscalation (base : Priority) (is_high_risk : Bool)
    (deployment_stage : String) (handles_pii : Bool) (risk_type : String) : Priority :=
  let p1 := if is_high_risk then escalationHighRisk base else base
  let p2 := if pyLower deployment_stage = "production" then escalationProduction p1 else p1
  if handles_pii then
    match (piiRules.find? (fun p => p.1 = risk_type)).map Prod.snd with
    | some q => q
    | none => p2
  else p2

/-- PriorityMapper.get_priority (response_adapter.py:399-426). -/
def get_priority (risk_type : String) (is_high_risk handles_pii : Bool)
    (deployment_stage : String) : Priority :=
  applyEscalation (basePriority risk_type) is_high_risk deployment_stage handles_pii risk_type

/-
Embedding of the scenario matcher (src/backend/app.py:250-320).  Note that in
app.py these helpers are defined inside the `except ImportError` handler of the
dynamic_resources import (app.py:61-389); the definitions below embed their
bodies as written.
-/

/-- SCENARIO_KEYWORD_HINTS (app.py:66-93). -/
def SCENARIO_KEYWORD_HINTS : List (String × List String) :=
  [("customer-chatbot",
    ["chatbot", "customer", "support", "helpdesk", "contact center",
     "call center", "service", "faq"]),
   ("ai-agent-automation",
    ["agent", "automation", "workflow", "orchestrator", "autonomous",
     "action", "process"]),
   ("loan-approval-model",
    ["loan", "credit", "underwriting", "finance", "mortgage", "lending"]),
   ("content-generation-platform",
    ["content", "marketing", "copy", "generation", "creative", "social"]),
   ("healthcare-ai-assistant",
    ["healthcare", "medical", "patient", "clinician", "doctor", "nurse"]),
   ("rag-enterprise-search",
    ["rag", "retrieval", "search", "knowledge", "documents", "grounding"]),
   ("image-generation-app",
    ["image", "vision", "generate", "art", "graphic", "media"]),
   ("multi-agent-system",
    ["multi-agent", "swarm", "ensemble", "agents", "coordinator"])]

/-- PROJECT_TYPE_HINTS (app.py:95-113). -/
def PROJECT_TYPE_HINTS : List (String × List String) :=
  [("ai agent", ["ai-agent-automation", "multi-agent-system"]),
   ("ai-agent", ["ai-agent-automation", "multi-agent-system"]),
   ("ai agents", ["ai-agent-automation", "multi-agent-system"]),
   ("llm/generative ai",
    ["customer-chatbot", "content-generation-platform", "rag-enterprise-search"]),
   ("generative ai",
    ["customer-chatbot", "content-generation-platform", "rag-enterprise-search"]),
   ("llm",
    ["customer-chatbot", "content-generation-platform", "rag-enterprise-search"]),
   ("traditional ml", ["loan-approval-model"]),
   ("ml", ["loan-approval-model"]),
   ("computer vision", ["image-generation-app"]),
   ("document intelligence", ["rag-enterprise-search"]),
   ("general ai", [])]

/-- A scenario of the knowledge catalog, restricted to the fields the matcher
reads (the catalog JSON itself is data supplied at runtime, not code). -/
structure Scenario where
  id : String
  title : String
  description : String
  industry_relevance : List String
  risk_profile : String
deriving DecidableEq

/-- `_safe_lower` (app.py:166-167): `str(value).lower() if value else ""`;
on a string input this is just lower-casing (the empty string maps to itself). -/
def safe_lower (value : String) : String := pyLower value

/-- Split a lower-cased character list into maximal runs of `[a-z0-9]`,
as `re.findall(r"[a-z0-9]+", text)` does. -/
def isTokenChar (c : Char) : Bool :=
  (decide ( 'a' ≤ c) && decide (c ≤ 'z')) || c.isDigit

def tokenRuns : List Char → List String
  | [] => []
  | c :: rest =>
    if isTokenChar c then
      match tokenRuns rest with
      | [] => [String.mk [c]]
      | t :: ts =>
        match rest with
        | r :: _ => if isTokenChar r then (String.mk (c :: t.data)) :: ts
                    else String.mk [c] :: t :: ts
        | [] => [String.mk [c]]
    else tokenRuns rest

/-- `_tokenize_for_matching` (app.py:170-176): join the non-empty values with
spaces, lower-case, take the alphanumeric runs longer than 2 characters, as a
set (modelled as a deduplicated list). -/
def tokenize_for_matching (values : List String) : List String :=
  let text := String.intercalate " " (values.filter (fun v => v != ""))
  ((tokenRuns (pyLower text).data).filter (fun t => t.length > 2)).dedup

/-- Size of the intersection of two token sets (both deduplicated). -/
def tokenInterCount (a b : List String) : Nat :=
  (a.filter (fun t => b.contains t)).length

/-- The per-scenario score of `_select_use_case_scenario` (app.py:287-311):
token overlap, +12 per keyword hint found in the combined text, +10 for an
industry substring match, and +14/+4 type-hint bonuses per distinct non-empty
project-type candidate. -/
def scenarioScore (combined : String) (projectTokens : List String)
    (industry : String) (typeCandidates : List String) (sc : Scenario) : Nat :=
  let scenarioTokens := tokenize_for_matching
    [sc.title, sc.description, String.intercalate " " sc.industry_relevance, sc.risk_profile]
  let hintPoints :=
    12 * ((((SCENARIO_KEYWORD_HINTS.find? (fun p => p.1 = sc.id)).map Prod.snd).getD
      []).filter (fun h => strIn h combined)).length
  let industryPoints :=
    if industry != "" && sc.industry_relevance.any (fun ind => strIn industry (safe_lower ind))
    then 10 else 0
  let typePoints :=
    (typeCandidates.filter (fun c => c != "")).foldl (fun acc c =>
      let hinted :=
        if (((PROJECT_TYPE_HINTS.find? (fun p => p.1 = c)).map Prod.snd).getD []).contains sc.id
        then 14 else 0
      let tokenHit := if scenarioTokens.contains c then 4 else 0
      acc + hinted + tokenHit) 0
  tokenInterCount projectTokens scenarioTokens + hintPoints + industryPoints + typePoints

/-- The combined lower-cased free text of the profile (app.py:259-265). -/
def scenarioCombinedText (pd : Profile) : String :=
  pyLower (String.intercalate " "
    [pGet pd "project_name", pGet pd "project_description",
     pGet pd "additional_context", pGet pd "business_problem",
     pGet pd "intended_purpose"])

/-- The profile token set (app.py:267-275).  `ai_capabilities`, the one
list-valued field, is passed explicitly. -/
def scenarioProjectTokens (pd : Profile) (ai_capabilities : List String) : List String :=
  tokenize_for_matching
    [pGet pd "project_name", pGet pd "project_description",
     pGet pd "additional_context", pGet pd "business_problem",
     pGet pd "intended_purpose", pGet pd "technology_type",
     String.intercalate " " ai_capabilities]

/-- The set of project-type candidates (app.py:278-282): the hint argument,
the profile's technology_type, and the adaptive metadata's detected type, each
lower-cased; a Python set, modelled as a deduplicated list. -/
def scenarioTypeCandidates (pd : Profile) (project_type_hint adaptiveDetectedType : String) :
    List String :=
  ([safe_lower project_type_hint, safe_lower (pGet pd "technology_type"),
    safe_lower adaptiveDetectedType]).dedup

/-- `_select_use_case_scenario` (app.py:250-320).  `knowledgeAvailable` models
the `KNOWLEDGE_AVAILABLE and knowledge_loader` guard, and `scenarios` the
catalog list; the best-so-far loop updates only on a strictly greater score,
and a winning score below 6 yields no match. -/
def select_use_case_scenario (knowledgeAvailable : Bool) (scenarios : List Scenario)
    (pd : Profile) (ai_capabilities : List String)
    (project_type_hint adaptiveDetectedType : String) : Option Scenario :=
  if !knowledgeAvailable then none
  else if scenarios.isEmpty then none
  else
    let combined := scenarioCombinedText pd
    let ptokens := scenarioProjectTokens pd ai_capabilities
    let industry := safe_lower (pGet pd "industry")
    let candidates := scenarioTypeCandidates pd project_type_hint adaptiveDetectedType
    let best := scenarios.foldl (fun acc sc =>
      let s := scenarioScore combined ptokens industry candidates sc
      if s > acc.2 then (some sc, s) else acc) ((none : Option Scenario), 0)
    if best.2 < 6 then none else best.1

/-
Embedding of calculate_basic_risk_scores (src/backend/app.py:1118-1191).
-/

/-- The mutable state threaded through the `bump` helper of
calculate_basic_risk_scores: the running score and the two driver lists. -/
structure RiskAcc where
  overall : Int
  drivers_pos : List String
  drivers_neg : List String
deriving DecidableEq

/-- `bump(amount, reason, positive)` (app.py:1135-1138). -/
def bump (acc : RiskAcc) (amount : Int) (reason : String) (positive : Bool) : RiskAcc :=
  { acc with
    overall := acc.overall + amount
    drivers_pos := if positive then acc.drivers_pos ++ [reason] else acc.drivers_pos
    drivers_neg := if positive then acc.drivers_neg else acc.drivers_neg ++ [reason] }

/-- The scorer's result, mirroring the returned dict (app.py:1175-1191);
`principle_scores` keeps the dict's six keys in insertion order. -/
structure RiskScores where
  overall_score : Int
  risk_level : String
  risk_summary : String
  principle_scores : List (String × Int)
  drivers_pos : List String
  drivers_neg : List String
deriving DecidableEq

/-- calculate_basic_risk_scores (app.py:1118-1191): start at 55, apply the
stage/keyword/capability bumps in source order, clamp to [0, 95], map to a
level, and derive the six principle scores.  `ai_capabilities` is the request's
list-valued `ai_capabilities` field (`project_data.get("ai_capabilities") or []`). -/
def calculate_basic_risk_scores (pd : Profile) (ai_capabilities : List String) : RiskScores :=
  let stage := pyLower (pGet pd "deployment_stage")
  let description := pyLower (pGet pd "project_description")
  let acc0 : RiskAcc := ⟨55, [], []⟩
  let acc1 := if ["production", "ga", "live"].contains stage
    then bump acc0 10 "Production deployment increases risk" false else acc0
  let acc2 := if ["health", "medical", "patient"].any (fun w => strIn w description)
    then bump acc1 12 "Health-related use case" false else acc1
  let acc3 := if ["financial", "bank", "payment", "loan"].any (fun w => strIn w description)
    then bump acc2 10 "Financial decisioning or data" false else acc2
  let acc4 := if ["children", "minor", "student"].any (fun w => strIn w description)
    then bump acc3 8 "Impacts children or minors" false else acc3
  let acc5 := if ["biometric", "facial", "face", "voiceprint"].any (fun w => strIn w description)
    then bump acc4 10 "Biometric data involved" false else acc4
  let highRiskCaps := ["personal_data", "decisions", "facial_recognition",
    "health_data", "financial"]
  let acc6 := if ai_capabilities.any (fun cap => highRiskCaps.contains cap)
    then bump acc5 12 "High-risk AI capability selected" false else acc5
  let overall := max 0 (min 95 acc6.overall)
  let level := if overall ≥ 85 then "High" else if overall ≥ 70 then "Medium" else "Low"
  let principleBase := max 50 (min 90 overall)
  { overall_score := overall
    risk_level := level
    risk_summary :=
      "Preliminary risk estimate based on limited input; provide more details for a refined score."
    principle_scores :=
      [("reliability_safety", principleBase),
       ("privacy_security",
        if acc6.drivers_neg.isEmpty then principleBase else min 95 (principleBase + 5)),
       ("fairness", principleBase),
       ("transparency", principleBase - 2),
       ("inclusiveness", principleBase - 3),
       ("accountability", principleBase - 1)]
    drivers_pos := acc6.drivers_pos
    drivers_neg := acc6.drivers_neg }

/-- The `risk_scores` dict the scorer returns, as a JSON value
(app.py:1175-1191). -/
def riskScoresJson (r : RiskScores) : JVal :=
  .obj
    [("overall_score", .num r.overall_score),
     ("risk_level", .str r.risk_level),
     ("risk_summary", .str r.risk_summary),
     ("principle_scores", .obj (r.principle_scores.map (fun p => (p.1, JVal.num p.2)))),
     ("critical_factors", .obj
       [("score_drivers_positive", .arr (r.drivers_pos.map JVal.str)),
        ("score_drivers_negative", .arr (r.drivers_neg.map JVal.str))]),
     ("qualitative_assessment", .obj
       [("governance",
         .str "Add ownership, escalation, and change control to improve accountability."),
        ("safety", .str "Validate safety filters, abuse monitoring, and rate limits."),
        ("privacy", .str "Confirm data minimization, retention limits, and PII handling."),
        ("fairness", .str "Check for biased training data and add evaluation slices."),
        ("transparency", .str "Document intended use, limitations, and user messaging.")])]

/-
Embedding of the resource cache (src/backend/dynamic_resources.py:55-155).
-/

/-- A well-formed on-disk cache file for one key: the JSON object
`timestamp`/`data` written by `_write_cache` (dynamic_resources.py:82-91).
Timestamps are modelled as integers on the same clock as `now`, with the TTL
expressed in the same unit. -/
structure CacheFile where
  timestamp : Int
  data : JVal

/-- `_is_cache_valid` (dynamic_resources.py:60-71): the file exists and
`now - fetched_at < ttl`. -/
def is_cache_valid (entry : Option CacheFile) (now ttl : Int) : Bool :=
  match entry with
  | none => false
  | some f => now - f.timestamp < ttl

/-- `_read_cache` (dynamic_resources.py:73-80): the stored `data` payload. -/
def read_cache (entry : Option CacheFile) : Option JVal :=
  entry.map (fun f => f.data)

/-- fetch_github_repo_info (dynamic_resources.py:93-155) for one cache key.
`fetchOutcome` models the GitHub call: `.ok result` carries the result dict
the function builds from the HTTP payload (before its `_source` tag), and
`.error ()` any HTTPError / network failure.  Returns the function's result
together with the cache state it leaves behind. -/
def fetch_github_repo_info (now ttl : Int) (entry : Option CacheFile)
    (fetchOutcome : Except Unit JVal) : Option JVal × Option CacheFile :=
  if is_cache_valid entry now ttl
      && jTruthy ((read_cache entry).getD .null) then
    -- cached_data["_source"] = "cache"; return cached_data (lines 103-107)
    (some (jSet ((read_cache entry).getD .null) "_source" (.str "cache")), entry)
  else
    match fetchOutcome with
    | .ok result =>
      -- build result with "_source": "github_api", write it, return it
      -- (lines 110-142)
      let tagged := jSet result "_source" (.str "github_api")
      (some tagged, some ⟨now, tagged⟩)
    | .error _ =>
      -- failure: return even an expired entry, marked stale (lines 144-155)
      match read_cache entry with
      | some d =>
        if jTruthy d then (some (jSet d "_source" (.str "stale_cache")), entry)
        else (none, entry)
      | none => (none, entry)

/-
Embedding of augment_with_dynamic_resources (src/backend/app.py:723-1115).
-/

/-- The names app.py binds only inside the `except ImportError` handler of the
dynamic_resources import (app.py:61-389). -/
def EXCEPT_BRANCH_HELPERS : List String :=
  ["SCENARIO_KEYWORD_HINTS", "PROJECT_TYPE_HINTS", "SCENARIO_STAKEHOLDERS",
   "DEFAULT_STAKEHOLDERS", "_safe_lower", "_tokenize_for_matching",
   "_dedupe_preserve_order", "_extract_latest_updates", "_format_tool_activity",
   "_select_use_case_scenario", "_parse_step", "_build_week_one_checklist",
   "_build_thirty_day_roadmap", "_build_structured_steps"]

/-- Whether `name` is bound at module level in app.py: the helper definitions
execute exactly when the `from dynamic_resources import ...` raises
ImportError, that is when DYNAMIC_RESOURCES_AVAILABLE is False. -/
def moduleHelperBound (dynamicResourcesAvailable : Bool) (name : String) : Bool :=
  !dynamicResourcesAvailable && EXCEPT_BRANCH_HELPERS.contains name

/-- augment_with_dynamic_resources (app.py:723-1115).
If DYNAMIC_RESOURCES_AVAILABLE is False the top guard (app.py:725-726) returns
the response unchanged.  Otherwise the body runs inside a catch-all
`try`/`except` (app.py:728, 1113-1115): its first statements (app.py:729-734)
only read `ai_response`/`project_data`, and the first helper call
`_safe_lower(project_type_source)` (app.py:735) references a name that is
unbound in this case, raising NameError before `ai_response` is mutated; the
`except` handler returns `ai_response` unchanged.  The enrichment body below
the NameError point is unreachable for every value of the flag and is
therefore not modelled further. -/
def augment_with_dynamic_resources (dynamicResourcesAvailable : Bool)
    (ai_response : JVal) (_project_data : Profile) : JVal :=
  if !dynamicResourcesAvailable then ai_response
  else if moduleHelperBound dynamicResourcesAvailable "_safe_lower" then
    ai_response  -- unreachable: the helpers are bound only when the guard above fired
  else ai_response  -- NameError at app.py:735, caught at app.py:1113

/-
Embedding of build_static_pillar_recommendations (app.py:1194-1243) and the
submit_review route (app.py:1841-1893).
-/

/-- Python `str.title()` on the slug strings this code titles: upper-case a
cased character that follows a non-cased one, lower-case the rest. -/
def pyTitleGo : Bool → List Char → List Char
  | _, [] => []
  | prevAlpha, c :: rest =>
    (if c.isAlpha && !prevAlpha then c.toUpper else c.toLower) :: pyTitleGo c.isAlpha rest

def pyTitle (s : String) : String := String.mk (pyTitleGo false s.data)

/-- Python `str.split()` with no argument: split on whitespace runs,
dropping empty pieces. -/
def pySplitWs (s : String) : List String :=
  (s.split Char.isWhitespace).filter (fun t => t != "")

/-- icon_map (app.py:1197-1204). -/
def PILLAR_ICON_MAP : List (String × String) :=
  [("reliability_safety", "🛡️"), ("privacy_security", "🔒"), ("fairness", "⚖️"),
   ("transparency", "🔍"), ("inclusiveness", "🌍"), ("accountability", "📋")]

/-- key_map (app.py:1206-1215). -/
def PILLAR_KEY_MAP : List (String × String) :=
  [("fairness", "fairness"),
   ("reliability & safety", "reliability_safety"),
   ("privacy & security", "privacy_security"),
   ("transparency", "transparency"),
   ("inclusiveness", "inclusiveness"),
   ("accountability", "accountability"),
   ("llm/generative ai specific", "reliability_safety"),
   ("llm generative ai specific", "reliability_safety")]

/-- The per-pillar record accumulated by the loop (app.py:1225-1233);
`pillar_description`/`why_it_matters`/the items keep the raw values. -/
structure PillarAcc where
  pillar_name : String
  pillar_icon : String
  pillar_description : JVal
  why_it_matters : JVal
  items : List JVal

/-- `rec.get(k)` as a string, empty for a missing or non-string value (the
static recommendations only carry strings in these slots). -/
def jGetStr (rec : JVal) (k : String) : String :=
  match jGet rec k with
  | some (.str s) => s
  | _ => ""

/-- Append items to an existing pillar, in place. -/
def pillarsAppend : List (String × PillarAcc) → String → List JVal →
    List (String × PillarAcc)
  | [], _, _ => []
  | (k', p) :: rest, k, newItems =>
    if k' = k then (k', { p with items := p.items ++ newItems }) :: rest
    else (k', p) :: pillarsAppend rest k newItems

/-- One iteration of the loop body of build_static_pillar_recommendations
(app.py:1219-1241). -/
def pillarStep (pillars : List (String × PillarAcc)) (rec : JVal) :
    List (String × PillarAcc) :=
  let principle := pyStrip (jGetStr rec "principle")
  let principle_key :=
    match (PILLAR_KEY_MAP.find? (fun p => p.1 = pyLower principle)).map Prod.snd with
    | some k => k
    | none => String.intercalate "_" (pySplitWs ((pyLower principle).replace "&" ""))
  if principle_key = "" then pillars
  else
    let desc := (jGet rec "description").getD (.str "")
    let withPillar :=
      if pillars.any (fun q => q.1 = principle_key) then pillars
      else pillars ++ [(principle_key,
        { pillar_name :=
            if principle != "" then principle
            else pyTitle (principle_key.replace "_" " ")
          pillar_icon :=
            (((PILLAR_ICON_MAP.find? (fun p => p.1 = principle_key)).map Prod.snd)).getD "📌"
          pillar_description := desc
          why_it_matters := desc
          items := [] })]
    let recItems :=
      match jGet rec "recommendations" with
      | some (.arr xs) => xs
      | _ => []
    let newItems := recItems.map (fun item => JVal.obj
      [("title", item),
       ("why_needed", desc),
       ("what_happens_without",
        .str "Increased likelihood of safety, fairness, or privacy issues if left unaddressed."),
       ("priority", (jGet rec "priority").getD (.str "High"))])
    pillarsAppend withPillar principle_key newItems

/-- build_static_pillar_recommendations (app.py:1194-1243). -/
def build_static_pillar_recommendations (recommendations : List JVal) : JVal :=
  let pillars := recommendations.foldl pillarStep []
  .obj (pillars.map (fun q => (q.1, JVal.obj
    [("pillar_name", .str q.2.pillar_name),
     ("pillar_icon", .str q.2.pillar_icon),
     ("pillar_description", q.2.pillar_description),
     ("why_it_matters", q.2.why_it_matters),
     ("risk_if_ignored",
      .str "Higher risk posture if these controls are not implemented."),
     ("recommendations", .arr q.2.items)])))

/-- `sum(1 for r in recommendations if r["priority"] == s)` (app.py:1877-1878);
the static recommendations always carry a string priority. -/
def countPriority (recommendations : List JVal) (s : String) : Nat :=
  (recommendations.filter (fun r =>
    match jGet r "priority" with
    | some (.str p) => p = s
    | _ => false)).length

/-- The static-fallback response of submit_review (app.py:1867-1891):
the response_data dict literal followed by the `risk_scores` and
`recommendations_by_pillar` assignments.  `uuid` models `str(uuid.uuid4())`
and `recommendations` the output of generate_recommendations_static (its
contents do not affect the key structure this route produces). -/
def submit_review_fallback (pd : Profile) (ai_capabilities : List String)
    (uuid : String) (recommendations : List JVal) : JVal :=
  let responseData := JVal.obj
    [("submission_id", .str uuid),
     ("project_name", .str (pGetD pd "project_name" "Unknown")),
     ("recommendations", .arr recommendations),
     ("status", .str "completed"),
     ("summary", .obj
       [("total_recommendations", .num recommendations.length),
        ("critical_items", .num (countPriority recommendations "Critical")),
        ("high_priority_items", .num (countPriority recommendations "High"))]),
     ("microsoft_rai_resources", .obj
       [("overview", .str "https://www.microsoft.com/ai/responsible-ai"),
        ("standards",
         .str "https://learn.microsoft.com/azure/machine-learning/concept-responsible-ai"),
        ("tools", .str "https://www.microsoft.com/ai/tools-practices")])]
  let r1 := jSet responseData "risk_scores"
    (riskScoresJson (calculate_basic_risk_scores pd ai_capabilities))
  jSet r1 "recommendations_by_pillar" (build_static_pillar_recommendations recommendations)

/-- The Python dict literal with spread used on the AI path (app.py:1860-1865):
base pairs first, then every entry of the (dict-shaped) generated response,
overriding in place or appending. -/
def spreadInto (base : JVal) : JVal → JVal
  | .obj kvs => kvs.foldl (fun acc p => jSet acc p.1 p.2) base
  | _ => base

/-- The submit_review route (app.py:1841-1893).  `clientAvailable` models the
Azure OpenAI client being configured; `aiResponse` the value returned by
generate_recommendations_adaptive, which depends on the opaque external
generation call and is therefore a parameter. -/
def submit_review (clientAvailable dynamicResourcesAvailable : Bool) (pd : Profile)
    (ai_capabilities : List String) (aiResponse : JVal) (uuid : String)
    (staticRecommendations : List JVal) : JVal :=
  if clientAvailable &&
     (jHasKey aiResponse "recommendations" || jHasKey aiResponse "recommendations_by_pillar") &&
     !(jTruthy ((jGet aiResponse "fallback").getD .null)) then
    let augmented := augment_with_dynamic_resources dynamicResourcesAvailable aiResponse pd
    spreadInto (JVal.obj
      [("submission_id", .str uuid),
       ("project_name", .str (pGetD pd "project_name" "Unknown")),
       ("ai_powered", .bool true)]) augmented
  else submit_review_fallback pd ai_capabilities uuid staticRecommendations

/-
Remaining definitions: the spec-side depth selector used for the refinement
comparison, a packaged per-profile scenario score, and the concrete inputs the
claim theorems evaluate.
-/

/-- The depth selection as the specification words it ("returns the first tier
whose threshold is ≤ score", scanning from the highest threshold): a second
definition written from the spec, to be compared with `select_depth`, which is
translated from the source. -/
def depthSpecHigherTier (score : Nat) : ResponseDepth :=
  if score ≥ 75 then .comprehensive
  else if score ≥ 50 then .standard
  else if score ≥ 25 then .basic
  else .minimal

/-- The score `_select_use_case_scenario` assigns to one scenario for a given
profile: `scenarioScore` applied to the combined text, token set, industry and
type candidates the function derives from the profile (app.py:259-311). -/
def profileScenarioScore (pd : Profile) (ai_capabilities : List String)
    (project_type_hint adaptiveDetectedType : String) (sc : Scenario) : Nat :=
  scenarioScore (scenarioCombinedText pd) (scenarioProjectTokens pd ai_capabilities)
    (safe_lower (pGet pd "industry"))
    (scenarioTypeCandidates pd project_type_hint adaptiveDetectedType) sc

/-- Concrete profile for claim C1: a minimal valid submission. -/
def pdC1 : Profile := [("project_name", "Demo")]

/-- Concrete partial generated response for claim C1: a response that parsed,
carries a pillar section, and is missing the other required keys. -/
def genC1 : JVal := .obj [("recommendations_by_pillar", .obj [])]

/-- Concrete generated response for claim C2: `risk_scores` present with
`overall_score` but without `principle_scores` (spec scenario 3). -/
def genC2 : JVal :=
  .obj [("risk_scores", .obj [("overall_score", .num 70)]),
        ("recommendations_by_pillar", .obj [])]

/-- Concrete profile for claim C2. -/
def pdC2 : Profile := [("project_name", "X")]

/-- Concrete generated response for the claim C2 witness. -/
def genC2W : JVal := .obj [("risk_scores", .obj [("overall_score", .num 70)])]

/-- Concrete cache payload for claim C8's witness. -/
def cachePayloadC8 : JVal := .obj [("name", .str "responsible-ai-toolbox")]

/-- Concrete profile for claim C9: exactly the five fields of spec scenario 2,
with a generic description. -/
def pdC9 : Profile :=
  [("project_name", "X"), ("project_description", "A web tool"),
   ("deployment_stage", "Production"), ("technology_type", "LLM"),
   ("industry", "Healthcare")]

/-- The shape of profile claim C9 quantifies over: exactly the five fields of
spec scenario 2, with arbitrary name and description. -/
def pdC9gen (name desc : String) : Profile :=
  [("project_name", name), ("project_description", desc),
   ("deployment_stage", "Production"), ("technology_type", "LLM"),
   ("industry", "Healthcare")]

/-- Concrete profile for claim C10: description "patient diagnosis history",
deployment stage Production, nothing else. -/
def pdC10 : Profile :=
  [("project_name", "Y"), ("project_description", "patient diagnosis history"),
   ("deployment_stage", "Production")]

/-- Concrete catalog scenario for claim C7's witness. -/
def scC7 : Scenario :=
  { id := "customer-chatbot"
    title := "Customer Support Chatbot"
    description := "An LLM chatbot that answers customer questions"
    industry_relevance := ["Retail"]
    risk_profile := "High risk of harmful content" }

/-- Concrete profile for claim C7's witness. -/
def pdC7 : Profile :=
  [("project_name", "Support Bot"),
   ("project_description", "A chatbot for customer support"),
   ("industry", "Retail")]

/-- A scenario that scores 0 against `pdC7`, for the C7 witness tie/floor
behaviour. -/
def scC7low : Scenario :=
  { id := "loan-approval-model"
    title := "Loan Approval Model"
    description := "Underwriting decisions"
    industry_relevance := ["Banking"]
    risk_profile := "Regulated" }

/-
Helper lemmas.
-/

theorem chStarts_append {pat l l' : List Char} (h : chStarts pat l = true) :
    chStarts pat (l ++ l') = true := by
  induction pat generalizing l with
  | nil => rfl
  | cons a as ih =>
    cases l with
    | nil => simp [chStarts] at h
    | cons b bs =>
      simp only [chStarts, Bool.and_eq_true] at h
      simp only [List.cons_append, chStarts, Bool.and_eq_true]
      exact ⟨h.1, ih h.2⟩

theorem chSub_nil_pat (l : List Char) : chSub [] l = true := by
  cases l <;> simp [chSub, chStarts]

theorem chSub_append_left {pat l1 : List Char} (l2 : List Char)
    (h : chSub pat l1 = true) : chSub pat (l1 ++ l2) = true := by
  induction l1 with
  | nil =>
    simp only [chSub, List.isEmpty_iff] at h
    subst h
    exact chSub_nil_pat l2
  | cons c rest ih =>
    simp only [chSub, Bool.or_eq_true] at h
    rcases h with h | h
    · simp only [List.cons_append, chSub, Bool.or_eq_true]
      exact Or.inl (chStarts_append h)
    · simp only [List.cons_append, chSub, Bool.or_eq_true]
      exact Or.inr (ih h)

theorem chSub_append_right {pat : List Char} (l1 : List Char) {l2 : List Char}
    (h : chSub pat l2 = true) : chSub pat (l1 ++ l2) = true := by
  induction l1 with
  | nil => simpa using h
  | cons c rest ih =>
    simp only [List.cons_append, chSub, Bool.or_eq_true]
    exact Or.inr ih

theorem strIn_append_left {n a : String} (b : String) (h : strIn n a = true) :
    strIn n (a ++ b) = true := by
  cases a with
  | mk la =>
    cases b with
    | mk lb => exact chSub_append_left lb h

theorem strIn_append_right {n b : String} (a : String) (h : strIn n b = true) :
    strIn n (a ++ b) = true := by
  cases a with
  | mk la =>
    cases b with
    | mk lb => exact chSub_append_right la h

theorem foldl_weight_congr (c1 c2 : String × Nat → Bool) :
    ∀ (L : List (String × Nat)) (a : Nat), (∀ p ∈ L, c1 p = c2 p) →
    L.foldl (fun acc p => if c1 p then acc + p.2 else acc) a
      = L.foldl (fun acc p => if c2 p then acc + p.2 else acc) a := by
  intro L
  induction L with
  | nil => intro a _; rfl
  | cons p rest ih =>
    intro a h
    simp only [List.foldl_cons]
    rw [h p (by simp)]
    exact ih _ (fun q hq => h q (by simp [hq]))

theorem map_fst_setPairs_notmem (kvs : List (String × JVal)) (k : String) (v : JVal)
    (h : ¬ k ∈ kvs.map Prod.fst) :
    (setPairs kvs k v).map Prod.fst = kvs.map Prod.fst ++ [k] := by
  induction kvs with
  | nil => rfl
  | cons p rest ih =>
    simp only [List.map_cons, List.mem_cons] at h
    push_neg at h
    simp only [setPairs, if_neg (Ne.symm h.1), List.map_cons, ih h.2, List.cons_append]

/-
Claims C3 and C2: the augmentor.
-/

/-- Claim C3: for every generated response and project profile,
augment_with_dynamic_resources returns its input dictionary unchanged: when
the dynamic_resources import failed it returns at the top guard, and when
the import succeeded the helper functions it calls are unbound (they are defined
only inside the except-ImportError branch), so the body raises NameError at
its first helper call and the enclosing catch-all except returns the untouched
response; no section of the final document is ever enriched by this function. -/
theorem augment_with_dynamic_resources_is_identity :
    ∀ (dynamicResourcesAvailable : Bool) (ai_response : JVal) (project_data : Profile),
    augment_with_dynamic_resources dynamicResourcesAvailable ai_response project_data
      = ai_response := by
  intro d ai pd
  cases d <;> rfl

/-- Claim C2, counterexample: the claim predicts that an absent sub-field
(`principle_scores` under a present `risk_scores`) is populated from the
deterministic fallback; on the code the augmentor returns the generated
response unchanged, so `principle_scores` stays absent even though the
fallback scorer supplies a non-empty principle_scores map for this profile. -/
theorem augment_fill_gaps_counterexample :
    augment_with_dynamic_resources true genC2 pdC2 = genC2 ∧
    (jGet (augment_with_dynamic_resources true genC2 pdC2) "risk_scores").bind
      (fun r => jGet r "principle_scores") = none ∧
    (calculate_basic_risk_scores pdC2 []).principle_scores ≠ [] := by
  refine ⟨rfl, rfl, by decide⟩

/-- Claim C2 (amended): every field present in the generated response appears
unchanged in the augmented document — because the augmentor returns its input
unchanged; absent or empty fields are never populated from the fallback. -/
theorem augment_preserves_generated_fields :
    ∀ (dynamicResourcesAvailable : Bool) (gen : JVal) (pd : Profile) (k : String) (v : JVal),
    jGet gen k = some v →
    jGet (augment_with_dynamic_resources dynamicResourcesAvailable gen pd) k = some v := by
  intro d gen pd k v h
  cases d <;> exact h

/-- Witness for the amended claim C2, at a concrete generated response. -/
theorem augment_preserves_generated_fields_witness :
    jGet (augment_with_dynamic_resources true genC2W pdC2) "risk_scores"
      = some (.obj [("overall_score", .num 70)]) :=
  augment_preserves_generated_fields true genC2W pdC2 "risk_scores"
    (.obj [("overall_score", .num 70)]) rfl

/-
Claim C4: the depth selector.
-/

/-- Claim C4: the depth selector uses the fixed thresholds 0 (Minimal),
25 (Basic), 50 (Standard), 75 (Comprehensive), scanning from the highest
threshold downward and returning the first tier whose threshold is at most
the score, so every boundary score resolves to the higher tier. -/
theorem select_depth_matches_thresholds :
    ∀ score : Nat, select_depth score = depthSpecHigherTier score ∧
    select_depth 25 = .basic ∧ select_depth 50 = .standard ∧
    select_depth 75 = .comprehensive := by
  intro score
  refine ⟨?_, by decide, by decide, by decide⟩
  show selectDepthLoop score DEPTH_THRESHOLDS.reverse = depthSpecHigherTier score
  have hrev : DEPTH_THRESHOLDS.reverse =
      [(.comprehensive, 75), (.standard, 50), (.basic, 25), (.minimal, 0)] := rfl
  rw [hrev]
  simp only [selectDepthLoop, depthSpecHigherTier]
  split_ifs <;> rfl

/-
Claim C6: priority escalation.
-/

theorem escalationHighRisk_mono :
    ∀ a b : Priority, severity a ≤ severity b →
    severity (escalationHighRisk a) ≤ severity (escalationHighRisk b) := by
  intro a b
  cases a <;> cases b <;> decide

theorem escalationProduction_mono :
    ∀ a b : Priority, severity a ≤ severity b →
    severity (escalationProduction a) ≤ severity (escalationProduction b) := by
  intro a b
  cases a <;> cases b <;> decide

theorem escalationHighRisk_le :
    ∀ a : Priority, severity a ≤ severity (escalationHighRisk a) := by
  intro a
  cases a <;> decide

theorem escalationProduction_le :
    ∀ a : Priority, severity a ≤ severity (escalationProduction a) := by
  intro a
  cases a <;> decide

theorem severity_le_critical : ∀ a : Priority, severity a ≤ severity .CRITICAL_BLOCKER := by
  intro a
  cases a <;> decide

/-- Evaluation of the handles_pii rule lookup for an arbitrary risk type. -/
theorem piiRules_lookup (rt : String) :
    (piiRules.find? (fun p => p.1 = rt)).map Prod.snd =
      if "pii_data_exposure" = rt then some Priority.CRITICAL_BLOCKER
      else if "lack_of_explainability" = rt then some Priority.HIGHLY_RECOMMENDED
      else none := by
  by_cases h1 : "pii_data_exposure" = rt <;> by_cases h2 : "lack_of_explainability" = rt <;>
    simp [piiRules, List.find?, h1, h2]

/-- Claim C6, counterexample: with handles_pii set and risk type
lack_of_explainability, the terminal override forces HIGHLY_RECOMMENDED, which
moves a CRITICAL_BLOCKER tier away from CriticalBlocker; in get_priority
itself (is_high_risk, production, handles_pii) the first two rules escalate
the base Recommended tier to CRITICAL_BLOCKER and the override then demotes
the result to HIGHLY_RECOMMENDED. -/
theorem priority_escalation_counterexample :
    applyEscalation .CRITICAL_BLOCKER false "Development" true "lack_of_explainability"
      = .HIGHLY_RECOMMENDED ∧
    applyEscalation (basePriority "lack_of_explainability") true "Production" false
      "lack_of_explainability" = .CRITICAL_BLOCKER ∧
    get_priority "lack_of_explainability" true true "Production" = .HIGHLY_RECOMMENDED ∧
    severity .HIGHLY_RECOMMENDED < severity .CRITICAL_BLOCKER := by decide

/-- Claim C6 (amended): escalation is monotonic in the base tier under an
identical context (characteristics flags, deployment stage and risk type) and
never escalates past CriticalBlocker; it never moves a tier away from
CriticalBlocker except in the one case the counterexample exhibits — the
handles_pii override for risk type lack_of_explainability, which forces
HighlyRecommended regardless of the tier reached before it. -/
theorem priority_escalation_monotone :
    ∀ (a b : Priority) (is_high_risk handles_pii : Bool) (stage rt : String),
    (severity a ≤ severity b →
      severity (applyEscalation a is_high_risk stage handles_pii rt)
        ≤ severity (applyEscalation b is_high_risk stage handles_pii rt)) ∧
    severity (applyEscalation a is_high_risk stage handles_pii rt)
      ≤ severity .CRITICAL_BLOCKER ∧
    (¬(handles_pii = true ∧ rt = "lack_of_explainability") →
      severity a ≤ severity (applyEscalation a is_high_risk stage handles_pii rt)) := by
  intro a b hr pii stage rt
  have chain_mono : ∀ x y : Priority, severity x ≤ severity y →
      severity (if pyLower stage = "production"
          then escalationProduction (if hr then escalationHighRisk x else x)
          else (if hr then escalationHighRisk x else x))
        ≤ severity (if pyLower stage = "production"
          then escalationProduction (if hr then escalationHighRisk y else y)
          else (if hr then escalationHighRisk y else y)) := by
    intro x y hxy
    have h1 : severity (if hr then escalationHighRisk x else x)
        ≤ severity (if hr then escalationHighRisk y else y) := by
      cases hr <;> simp [escalationHighRisk_mono x y hxy, hxy]
    by_cases hs : pyLower stage = "production" <;>
      simp [hs, escalationProduction_mono _ _ h1, h1]
  have chain_le : ∀ x : Priority, severity x ≤
      severity (if pyLower stage = "production"
          then escalationProduction (if hr then escalationHighRisk x else x)
          else (if hr then escalationHighRisk x else x)) := by
    intro x
    have h1 : severity x ≤ severity (if hr then escalationHighRisk x else x) := by
      cases hr <;> simp [escalationHighRisk_le x]
    by_cases hs : pyLower stage = "production" <;>
      simp [hs]
    · exact le_trans h1 (escalationProduction_le _)
    · exact h1
  refine ⟨?_, severity_le_critical _, ?_⟩
  · intro hab
    simp only [applyEscalation, piiRules_lookup]
    cases pii with
    | false => exact chain_mono a b hab
    | true =>
      by_cases h1 : "pii_data_exposure" = rt <;> by_cases h2 : "lack_of_explainability" = rt <;>
        simp [h1, h2]
      · exact chain_mono a b hab
  · intro hnot
    simp only [applyEscalation, piiRules_lookup]
    cases pii with
    | false => exact chain_le a
    | true =>
      by_cases h1 : "pii_data_exposure" = rt
      · simp [h1, severity_le_critical]
      · by_cases h2 : "lack_of_explainability" = rt
        · exact absurd ⟨rfl, h2.symm⟩ hnot
        · simp [h1, h2]
          exact chain_le a

/-- Witness for the amended claim C6, at a concrete base pair and context. -/
theorem priority_escalation_monotone_witness :
    severity (applyEscalation .NICE_TO_HAVE true "Production" false "model_reliability")
      ≤ severity (applyEscalation .RECOMMENDED true "Production" false "model_reliability") ∧
    severity Priority.NICE_TO_HAVE
      ≤ severity (applyEscalation .NICE_TO_HAVE true "Production" false "model_reliability") :=
  ⟨(priority_escalation_monotone .NICE_TO_HAVE .RECOMMENDED true false "Production"
      "model_reliability").1 (by decide),
   (priority_escalation_monotone .NICE_TO_HAVE .RECOMMENDED true false "Production"
      "model_reliability").2.2 (by simp)⟩

/-
Claims C9 and C10: the concrete spec scenarios.
-/

/-- Claim C9, counterexample: for the five-field profile of spec scenario 2
the completeness score is 30 (55 of 182 weight points), not at least 50; the
depth is Basic, not Standard; is_llm_project holds (technology_type "LLM")
but is_high_risk does not, because detect_project_type never reads the
industry field and the generic description carries no high-risk keyword. -/
theorem five_field_profile_counterexample :
    (assess_input pdC9).completeness_score = 30 ∧
    ¬ 50 ≤ (assess_input pdC9).completeness_score ∧
    (assess_input pdC9).response_depth = .basic ∧
    (detect_project_type pdC9).is_llm_project = true ∧
    (detect_project_type pdC9).is_high_risk = false := by decide

/-- Claim C9 (amended): for every profile providing exactly project_name and
project_description (non-sentinel), deployment_stage Production,
technology_type LLM and industry Healthcare, the completeness score is 30,
the depth Basic, and is_llm_project holds; is_high_risk depends only on the
description/technology/ai_models text, never on the industry field. -/
theorem five_field_profile_assessment :
    ∀ (name desc : String), isProvided name = true → isProvided desc = true →
    (assess_input (pdC9gen name desc)).completeness_score = 30 ∧
    (assess_input (pdC9gen name desc)).response_depth = .basic ∧
    (detect_project_type (pdC9gen name desc)).is_llm_project = true := by
  intro name desc h1 h2
  have hA : achievedWeight (pdC9gen name desc) = achievedWeight pdC9 := by
    apply foldl_weight_congr
    intro p hp
    simp only [FIELD_WEIGHTS] at hp
    fin_cases hp <;> first | rfl | exact h1 | exact h2
  have hC : completeness_score (pdC9gen name desc) = 30 := by
    unfold completeness_score
    rw [hA]
    decide
  refine ⟨hC, ?_, ?_⟩
  · show select_depth (completeness_score (pdC9gen name desc)) = .basic
    rw [hC]
    decide
  · have e : pGet (pdC9gen name desc) "technology_type" = "LLM" := rfl
    have hllm : strIn "llm"
        (pyLower (pGet (pdC9gen name desc) "project_description") ++ " " ++
         pyLower (pGet (pdC9gen name desc) "technology_type") ++ " " ++
         pyLower (pGet (pdC9gen name desc) "ai_models")) = true := by
      apply strIn_append_left
      apply strIn_append_left
      apply strIn_append_right
      rw [e]
      decide
    simp only [detect_project_type]
    simp only [anyKeywordIn, PATTERN_IS_LLM, List.any_cons, hllm, Bool.true_or]

/-- Witness for the amended claim C9, at the concrete name and description of
`pdC9`. -/
theorem five_field_profile_assessment_witness :
    (assess_input (pdC9gen "X" "A web tool")).completeness_score = 30 ∧
    (assess_input (pdC9gen "X" "A web tool")).response_depth = .basic ∧
    (detect_project_type (pdC9gen "X" "A web tool")).is_llm_project = true :=
  five_field_profile_assessment "X" "A web tool" (by decide) (by decide)

/-- Claim C10, counterexample: for a profile whose description is exactly
"patient diagnosis history" with deployment_stage Production, the fallback
scorer returns 55 + 12 + 10 = 77 and level "Medium", not "High" (the claim's
"at least 85" is arithmetically unreachable from those two bumps alone);
drivers_negative does carry the health entry. -/
theorem basic_risk_scores_counterexample :
    (calculate_basic_risk_scores pdC10 []).overall_score = 77 ∧
    (calculate_basic_risk_scores pdC10 []).risk_level = "Medium" ∧
    (calculate_basic_risk_scores pdC10 []).risk_level ≠ "High" ∧
    (calculate_basic_risk_scores pdC10 []).drivers_neg =
      ["Production deployment increases risk", "Health-related use case"] := by decide

/-- Claim C10 (amended): for every profile whose lower-cased description
contains the health keyword "patient" (as any description containing
"patient diagnosis history" does) and whose deployment stage lowers to
"production", the +12 health and +10 production bumps both fire: the overall
score is at least 77 = 55 + 12 + 10 and at most the clamp 95, drivers_negative
contains the health entry, and the level is "High" exactly when the score
reaches 85, which requires further bumps; with none it is 77, level "Medium". -/
theorem health_production_risk_bumps :
    ∀ (pd : Profile) (caps : List String),
    strIn "patient" (pyLower (pGet pd "project_description")) = true →
    pyLower (pGet pd "deployment_stage") = "production" →
    77 ≤ (calculate_basic_risk_scores pd caps).overall_score ∧
    (calculate_basic_risk_scores pd caps).overall_score ≤ 95 ∧
    (calculate_basic_risk_scores pd caps).drivers_neg.contains "Health-related use case" = true ∧
    ((calculate_basic_risk_scores pd caps).overall_score < 85 →
      (calculate_basic_risk_scores pd caps).risk_level = "Medium") ∧
    (85 ≤ (calculate_basic_risk_scores pd caps).overall_score →
      (calculate_basic_risk_scores pd caps).risk_level = "High") := by
  intro pd caps hp hs
  simp only [calculate_basic_risk_scores, bump, hs, hp]
  norm_num
  split_ifs <;> simp_all

/-- Witness for the amended claim C10, at the concrete profile `pdC10`. -/
theorem health_production_risk_bumps_witness :
    77 ≤ (calculate_basic_risk_scores pdC10 []).overall_score ∧
    (calculate_basic_risk_scores pdC10 []).overall_score ≤ 95 ∧
    (calculate_basic_risk_scores pdC10 []).drivers_neg.contains
      "Health-related use case" = true ∧
    ((calculate_basic_risk_scores pdC10 []).overall_score < 85 →
      (calculate_basic_risk_scores pdC10 []).risk_level = "Medium") ∧
    (85 ≤ (calculate_basic_risk_scores pdC10 []).overall_score →
      (calculate_basic_risk_scores pdC10 []).risk_level = "High") :=
  health_production_risk_bumps pdC10 [] (by decide) (by decide)

/-
Claim C1: the review endpoint's top-level keys.
-/

/-- Claim C1, counterexample: on the static-fallback path (no generation
client) the response for a minimal profile carries risk_scores and
recommendations_by_pillar but none of next_steps, reference_architecture or
quick_start_guide; and on the AI path with a partial generated response the
document contains exactly the generated keys plus the three envelope keys, so
next_steps and risk_scores are absent there too — the five-key contract fails
in both cases. -/
theorem submit_review_keys_counterexample :
    jHasKey (submit_review false true pdC1 [] genC1 "uuid-1" []) "next_steps" = false ∧
    jHasKey (submit_review false true pdC1 [] genC1 "uuid-1" []) "reference_architecture"
      = false ∧
    jHasKey (submit_review false true pdC1 [] genC1 "uuid-1" []) "quick_start_guide" = false ∧
    jHasKey (submit_review false true pdC1 [] genC1 "uuid-1" []) "risk_scores" = true ∧
    jHasKey (submit_review false true pdC1 [] genC1 "uuid-1" []) "recommendations_by_pillar"
      = true ∧
    jHasKey (submit_review true true pdC1 [] genC1 "uuid-1" []) "next_steps" = false ∧
    jHasKey (submit_review true true pdC1 [] genC1 "uuid-1" []) "risk_scores" = false := by
  decide

/-- Claim C1 (amended): the static-fallback response of submit_review has
exactly the eight top-level keys below, for every profile, capability list and
static recommendation list: risk_scores and recommendations_by_pillar are
always present, while reference_architecture, quick_start_guide and next_steps
are never produced on this path. -/
theorem submit_review_fallback_keys :
    ∀ (pd : Profile) (caps : List String) (uuid : String) (recs : List JVal),
    topKeys (submit_review_fallback pd caps uuid recs) =
      ["submission_id", "project_name", "recommendations", "status", "summary",
       "microsoft_rai_resources", "risk_scores", "recommendations_by_pillar"] := by
  intro pd caps uuid recs
  simp only [submit_review_fallback, jSet, topKeys]
  rw [map_fst_setPairs_notmem]
  · rw [map_fst_setPairs_notmem]
    · rfl
    · simp
  · rw [map_fst_setPairs_notmem]
    · simp
    · simp

/-
Claim C8: the resource cache's stale-serve contract.
-/

/-- Claim C8, counterexample: a cache entry that exists and is within the TTL
but whose payload is the empty object is treated as a miss — the fetch is
performed (the result depends on the fetch outcome and is tagged github_api,
not cache), and a failing fetch over that same valid entry yields None rather
than the entry's payload. -/
theorem fetch_cache_counterexample :
    is_cache_valid (some ⟨0, .obj []⟩) 1 6 = true ∧
    (fetch_github_repo_info 1 6 (some ⟨0, .obj []⟩) (.error ())).1 = none ∧
    ((fetch_github_repo_info 1 6 (some ⟨0, .obj []⟩) (.ok cachePayloadC8)).1.map
      (fun j => jGet j "_source")) = some (some (.str "github_api")) := by
  refine ⟨rfl, rfl, rfl⟩

/-- Claim C8 (amended): for entries with a non-empty (truthy) payload — the
only kind `_write_cache` ever produces — the stale-serve contract holds: a
within-TTL entry is returned tagged "cache" without consulting the fetch and
with the store untouched; on fetch failure an expired entry's old payload is
returned tagged "stale_cache"; and a fetch failure with no entry yields None
rather than an error. -/
theorem fetch_cache_stale_serve :
    ∀ (now ttl : Int) (fl : CacheFile) (fetchOutcome : Except Unit JVal),
    jTruthy fl.data = true →
    (now - fl.timestamp < ttl →
      fetch_github_repo_info now ttl (some fl) fetchOutcome
        = (some (jSet fl.data "_source" (JVal.str "cache")), some fl)) ∧
    (¬ now - fl.timestamp < ttl →
      fetch_github_repo_info now ttl (some fl) (.error ())
        = (some (jSet fl.data "_source" (JVal.str "stale_cache")), some fl)) ∧
    (∀ e : Unit, fetch_github_repo_info now ttl none (.error e) = (none, none)) := by
  intro now ttl fl f htruthy
  refine ⟨?_, ?_, ?_⟩
  · intro hvalid
    simp [fetch_github_repo_info, is_cache_valid, read_cache, hvalid, htruthy]
  · intro hexpired
    simp [fetch_github_repo_info, is_cache_valid, read_cache, hexpired, htruthy]
  · intro e
    simp [fetch_github_repo_info, is_cache_valid, read_cache]

/-- Witness for the amended claim C8: a fresh entry is served from cache for
any fetch outcome, and an expired entry is served stale on failure. -/
theorem fetch_cache_stale_serve_witness :
    fetch_github_repo_info 1 6 (some ⟨0, cachePayloadC8⟩) (.ok (JVal.obj []))
      = (some (jSet cachePayloadC8 "_source" (JVal.str "cache")),
         some ⟨0, cachePayloadC8⟩) ∧
    fetch_github_repo_info 10 6 (some ⟨0, cachePayloadC8⟩) (.error ())
      = (some (jSet cachePayloadC8 "_source" (JVal.str "stale_cache")),
         some ⟨0, cachePayloadC8⟩) :=
  ⟨(fetch_cache_stale_serve 1 6 ⟨0, cachePayloadC8⟩ (.ok (JVal.obj [])) (by decide)).1
     (by decide),
   (fetch_cache_stale_serve 10 6 ⟨0, cachePayloadC8⟩ (.error ()) (by decide)).2.1
     (by decide)⟩

/-
Claim C5: completeness-score bounds and monotonicity.
-/

theorem foldl_weight_le (c : String × Nat → Bool) :
    ∀ (L : List (String × Nat)) (a : Nat),
    L.foldl (fun acc p => if c p then acc + p.2 else acc) a ≤ a + (L.map Prod.snd).sum := by
  intro L
  induction L with
  | nil => intro a; simp
  | cons p rest ih =>
    intro a
    simp only [List.foldl_cons, List.map_cons, List.sum_cons]
    refine le_trans (ih _) ?_
    by_cases h : c p
    · rw [if_pos h]; omega
    · rw [if_neg h]; omega

theorem foldl_weight_mono (c1 c2 : String × Nat → Bool) :
    ∀ (L : List (String × Nat)) (a b : Nat), a ≤ b →
    (∀ p ∈ L, c1 p = true → c2 p = true) →
    L.foldl (fun acc p => if c1 p then acc + p.2 else acc) a
      ≤ L.foldl (fun acc p => if c2 p then acc + p.2 else acc) b := by
  intro L
  induction L with
  | nil => intro a b hab _; simpa using hab
  | cons p rest ih =>
    intro a b hab h
    simp only [List.foldl_cons]
    refine ih _ _ ?_ (fun q hq => h q (by simp [hq]))
    by_cases hc1 : c1 p
    · rw [if_pos hc1, if_pos (h p (by simp) hc1)]
      omega
    · rw [if_neg hc1]
      by_cases hc2 : c2 p
      · rw [if_pos hc2]; omega
      · rw [if_neg hc2]; omega

theorem pGet_cons (f v g : String) (pd : Profile) :
    pGet ((f, v) :: pd) g = if f = g then v else pGet pd g := by
  by_cases h : f = g <;> simp [pGet, List.find?, h]

/-- Claim C5: for every profile the completeness score lies between 0 and 100,
and changing any recognized weighted field from a missing/blank/sentinel value
to a provided (non-empty, non-sentinel) value never decreases the score. -/
theorem completeness_bounds_and_monotone :
    (∀ pd : Profile, 0 ≤ (assess_input pd).completeness_score ∧
      (assess_input pd).completeness_score ≤ 100) ∧
    (∀ (pd : Profile) (f v : String),
      (FIELD_WEIGHTS.map Prod.fst).contains f = true →
      isProvided (pGet pd f) = false → isProvided v = true →
      (assess_input pd).completeness_score
        ≤ (assess_input ((f, v) :: pd)).completeness_score) := by
  constructor
  · intro pd
    refine ⟨Nat.zero_le _, ?_⟩
    show completeness_score pd ≤ 100
    have ha : achievedWeight pd ≤ 182 := by
      have := foldl_weight_le (fun p => isProvided (pGet pd p.1)) FIELD_WEIGHTS 0
      simpa using this
    show pyRoundDiv (achievedWeight pd * 100) totalWeight ≤ 100
    have ht : totalWeight = 182 := rfl
    rw [ht]
    unfold pyRoundDiv
    omega
  · intro pd f v _ _ hv
    show completeness_score pd ≤ completeness_score ((f, v) :: pd)
    have hmono : achievedWeight pd ≤ achievedWeight ((f, v) :: pd) := by
      apply foldl_weight_mono _ _ _ 0 0 le_rfl
      intro p _ hp
      rw [pGet_cons]
      by_cases hpf : f = p.1
      · rw [if_pos hpf]; exact hv
      · rw [if_neg hpf]; exact hp
    show pyRoundDiv (achievedWeight pd * 100) totalWeight
      ≤ pyRoundDiv (achievedWeight ((f, v) :: pd) * 100) totalWeight
    have ht : totalWeight = 182 := rfl
    rw [ht]
    unfold pyRoundDiv
    omega

/-- Witness for claim C5: adding the industry field to the empty profile does
not decrease the score. -/
theorem completeness_bounds_and_monotone_witness :
    (assess_input ([] : Profile)).completeness_score
      ≤ (assess_input [("industry", "Retail")]).completeness_score :=
  completeness_bounds_and_monotone.2 [] "industry" "Retail"
    (by decide) (by decide) (by decide)

/-
Claim C7: scenario matching.
-/

theorem foldl_best_spec {α : Type} (f : α → Nat) :
    ∀ (l : List α) (b : Option α) (n : Nat),
    (l.foldl (fun acc sc => if f sc > acc.2 then (some sc, f sc) else acc) (b, n) = (b, n) ∧
      ∀ sc ∈ l, f sc ≤ n) ∨
    (∃ l1 s l2, l = l1 ++ s :: l2 ∧
      l.foldl (fun acc sc => if f sc > acc.2 then (some sc, f sc) else acc) (b, n)
        = (some s, f s) ∧
      n < f s ∧ (∀ t ∈ l1, f t < f s) ∧ (∀ t ∈ l2, f t ≤ f s)) := by
  intro l
  induction l with
  | nil => intro b n; exact Or.inl ⟨rfl, by simp⟩
  | cons sc rest ih =>
    intro b n
    simp only [List.foldl_cons]
    by_cases h : f sc > n
    · rw [if_pos h]
      rcases ih (some sc) (f sc) with ⟨heq, hall⟩ | ⟨l1, s, l2, hl, heq, hpos, hlt, hle⟩
      · refine Or.inr ⟨[], sc, rest, by simp, heq, h, by simp, hall⟩
      · refine Or.inr ⟨sc :: l1, s, l2, by simp [hl], heq, lt_trans h hpos, ?_, hle⟩
        intro t ht
        rcases List.mem_cons.mp ht with rfl | ht
        · exact hpos
        · exact hlt t ht
    · rw [if_neg h]
      push_neg at h
      rcases ih b n with ⟨heq, hall⟩ | ⟨l1, s, l2, hl, heq, hpos, hlt, hle⟩
      · refine Or.inl ⟨heq, ?_⟩
        intro t ht
        rcases List.mem_cons.mp ht with rfl | ht
        · exact h
        · exact hall t ht
      · refine Or.inr ⟨sc :: l1, s, l2, by simp [hl], heq, hpos, ?_, hle⟩
        intro t ht
        rcases List.mem_cons.mp ht with rfl | ht
        · exact lt_of_le_of_lt h hpos
        · exact hlt t ht

/-- Claim C7: scenario matching is a deterministic function of the profile and
catalog (it is a pure function of them); the returned scenario, when any, is
the one with the strictly highest score — on ties the first encountered in
catalog iteration order — and whenever the winning score is below 6 the
matcher returns None. -/
theorem select_scenario_best_match :
    ∀ (scenarios : List Scenario) (pd : Profile) (caps : List String) (hint adaptive : String),
    (select_use_case_scenario true scenarios pd caps hint adaptive = none →
      ∀ sc ∈ scenarios, profileScenarioScore pd caps hint adaptive sc < 6) ∧
    (∀ s, select_use_case_scenario true scenarios pd caps hint adaptive = some s →
      6 ≤ profileScenarioScore pd caps hint adaptive s ∧
      (∀ t ∈ scenarios, profileScenarioScore pd caps hint adaptive t
        ≤ profileScenarioScore pd caps hint adaptive s) ∧
      ∃ l1 l2, scenarios = l1 ++ s :: l2 ∧
        ∀ t ∈ l1, profileScenarioScore pd caps hint adaptive t
          < profileScenarioScore pd caps hint adaptive s) := by
  intro scenarios pd caps hint adaptive
  by_cases hemp : scenarios.isEmpty
  · rcases List.isEmpty_iff.mp hemp with rfl
    have hsel : select_use_case_scenario true [] pd caps hint adaptive = none := rfl
    refine ⟨fun _ sc hsc => absurd hsc (by simp), fun s hs => ?_⟩
    rw [hsel] at hs
    exact absurd hs (by simp)
  · have hsel_eq : select_use_case_scenario true scenarios pd caps hint adaptive
        = (if (scenarios.foldl (fun acc sc =>
              if profileScenarioScore pd caps hint adaptive sc > acc.2
              then (some sc, profileScenarioScore pd caps hint adaptive sc) else acc)
              ((none : Option Scenario), 0)).2 < 6 then none
           else (scenarios.foldl (fun acc sc =>
              if profileScenarioScore pd caps hint adaptive sc > acc.2
              then (some sc, profileScenarioScore pd caps hint adaptive sc) else acc)
              ((none : Option Scenario), 0)).1) := by
      simp only [select_use_case_scenario, Bool.not_true, Bool.false_eq_true, if_false, hemp,
        profileScenarioScore]
    rcases foldl_best_spec (profileScenarioScore pd caps hint adaptive) scenarios none 0 with
      ⟨heq, hall⟩ | ⟨l1, s, l2, hl, heq, hpos, hlt, hle⟩
    · have hsel : select_use_case_scenario true scenarios pd caps hint adaptive = none := by
        rw [hsel_eq, heq]
        simp
      refine ⟨fun _ sc hsc => lt_of_le_of_lt (hall sc hsc) (by norm_num), fun s hs => ?_⟩
      rw [hsel] at hs
      exact absurd hs (by simp)
    · by_cases hscore : profileScenarioScore pd caps hint adaptive s < 6
      · have hsel : select_use_case_scenario true scenarios pd caps hint adaptive = none := by
          rw [hsel_eq, heq, if_pos hscore]
        refine ⟨fun _ t ht => ?_, fun s' hs' => ?_⟩
        · rw [hl] at ht
          rcases List.mem_append.mp ht with ht1 | ht2
          · exact lt_trans (hlt t ht1) hscore
          · rcases List.mem_cons.mp ht2 with rfl | ht2
            · exact hscore
            · exact lt_of_le_of_lt (hle t ht2) hscore
        · rw [hsel] at hs'
          exact absurd hs' (by simp)
      · have hsel : select_use_case_scenario true scenarios pd caps hint adaptive = some s := by
          rw [hsel_eq, heq, if_neg hscore]
        refine ⟨fun h0 => ?_, fun s' hs' => ?_⟩
        · rw [hsel] at h0
          exact absurd h0 (by simp)
        · rw [hsel] at hs'
          have hsame : s = s' := by injection hs'
          subst hsame
          refine ⟨by omega, ?_, l1, l2, hl, hlt⟩
          intro t ht
          rw [hl] at ht
          rcases List.mem_append.mp ht with ht1 | ht2
          · exact le_of_lt (hlt t ht1)
          · rcases List.mem_cons.mp ht2 with rfl | ht2
            · exact le_rfl
            · exact hle t ht2

/-- Witness for claim C7: on a two-scenario catalog the matcher picks the
high-scoring chatbot scenario, whose score clears the confidence floor. -/
theorem select_scenario_best_match_witness :
    select_use_case_scenario true [scC7low, scC7] pdC7 [] "" "" = some scC7 ∧
    6 ≤ profileScenarioScore pdC7 [] "" "" scC7 ∧
    profileScenarioScore pdC7 [] "" "" scC7low ≤ profileScenarioScore pdC7 [] "" "" scC7 := by
  have hsel : select_use_case_scenario true [scC7low, scC7] pdC7 [] "" "" = some scC7 := by
    decide
  have h := (select_scenario_best_match [scC7low, scC7] pdC7 [] "" "").2 scC7 hsel
  exact ⟨hsel, h.1, h.2.1 scC7low (by simp)⟩
